import Mathlib

/-!
Shallow embedding of the rook-s3-nano reconciliation controller
(package `controllers`: `spec.go`, `objectstore_controller.go`, and the
`v1alpha1` API types) together with theorems checking the repository's
natural-language specification against the code.

Go strings are modelled as Lean `String`s (all strings involved are
ASCII, so Go's byte-oriented operations coincide with character-wise
operations); Go slices as Lean `List`s; Go structs as Lean structures
with the same zero values as defaults; nil pointers as `Option`.
-/

namespace Rook

/-! ## Constants (spec.go, objectstore_controller.go) -/

def rgwBeastFrontendName : String := "beast"

def rgwPortInternalPort : Int := 7480

def appName : String := "rgw"

def podNameEnvVar : String := "POD_NAME"

def objectStoreDataDirectory : String := "/var/lib/ceph/radosgw/data"

def cephGID : Int := 167

def CephUID : Int := 167

/-! ## String helpers (spec.go)

`strings.Replace(s, old, new, -1)` with a single-character `old` and
`new` replaces every occurrence of that character, i.e. it is the
character-wise map that sends `pat` to `rep` and fixes everything else.
-/

/-- `strings.Replace(s, pat, rep, -1)` for one-character patterns. -/
def replaceChar (pat rep : Char) (s : String) : String :=
  ⟨s.data.map (fun c => if c = pat then rep else c)⟩

/-- normalizeKey converts a key in any format to a key with underscores
(spec.go): `strings.Replace(strings.Replace(key, " ", "_", -1), "-", "_", -1)`. -/
def normalizeKey (key : String) : String :=
  replaceChar '-' '_' (replaceChar ' ' '_' key)

/-- ContainerEnvVarReference returns `fmt.Sprintf("$(%s)", envVarName)`. -/
def ContainerEnvVarReference (envVarName : String) : String :=
  "$(" ++ envVarName ++ ")"

/-- NewFlag returns the key-value pair in the format of a Ceph command
line-compatible flag (spec.go): normalize the key, replace underscores
by dashes, then `fmt.Sprintf("--%s=%s", f, value)`. -/
def NewFlag (key value : String) : String :=
  "--" ++ replaceChar '_' '-' (normalizeKey key) ++ "=" ++ value

/-- instanceName returns `fmt.Sprintf("%s-%s-%s", appName, name, namespace)`. -/
def instanceName (name nspace : String) : String :=
  appName ++ "-" ++ name ++ "-" ++ nspace

/-- Modelled from the spec: the API group of the `v1alpha1` package.  The
file `groupversion_info.go` defining `v1alpha1.GroupVersion` is not part
of the sources; the spec states the group is `object.<product>` and the
CRD manifest names it `object.rook-s3-nano`, and the spec states the
finalizer is `"<lowercase kind>.<api-group>"`. -/
def apiGroup : String := "object.rook-s3-nano"

/-- `strings.ToLower` as the character-wise lowercasing map (the ASCII
inputs used here have no special casing). -/
def toLowerStr (s : String) : String := ⟨s.data.map Char.toLower⟩

/-- buildFinalizerName returns the finalizer name (spec.go):
`fmt.Sprintf("%s.%s", strings.ToLower(kind), v1alpha1.GroupVersion)`,
with the group-version operand modelled from the spec as the API group. -/
def buildFinalizerName (kind : String) : String :=
  toLowerStr kind ++ "." ++ apiGroup

/-- defaultDaemonFlag (spec.go).  Note the trailing space in the third
element, exactly as in the source: `"--nolockdep "`. -/
def defaultDaemonFlag : List String :=
  ["-d", "--no-mon-config", "--nolockdep "]

/-! ## SHA-256 (Go `crypto/sha256`, FIPS 180-4)

Words are `Nat`s kept below `2^32` by explicit reduction; a message is a
list of bytes (`Nat`s below 256).  `hash` in spec.go is
`hex.EncodeToString(h[:16])` of `sha256.Sum256([]byte(s))`. -/

/-- Reduce to a 32-bit word. -/
def w32 (n : Nat) : Nat := n % 4294967296

/-- Right rotation of a 32-bit word by `n` places. -/
def rotr32 (n x : Nat) : Nat := w32 ((x >>> n) ||| (x <<< (32 - n)))

def shaCh (x y z : Nat) : Nat := (x &&& y) ^^^ ((4294967295 - w32 x) &&& z)

def shaMaj (x y z : Nat) : Nat := (x &&& y) ^^^ (x &&& z) ^^^ (y &&& z)

def bigSigma0 (x : Nat) : Nat := rotr32 2 x ^^^ rotr32 13 x ^^^ rotr32 22 x

def bigSigma1 (x : Nat) : Nat := rotr32 6 x ^^^ rotr32 11 x ^^^ rotr32 25 x

def smallSigma0 (x : Nat) : Nat := rotr32 7 x ^^^ rotr32 18 x ^^^ (x >>> 3)

def smallSigma1 (x : Nat) : Nat := rotr32 17 x ^^^ rotr32 19 x ^^^ (x >>> 10)

/-- The 64 SHA-256 round constants (FIPS 180-4 §4.2.2, in decimal). -/
def sha256K : List Nat :=
  [1116352408, 1899447441, 3049323471, 3921009573, 961987163,
   1508970993, 2453635748, 2870763221, 3624381080, 310598401,
   607225278, 1426881987, 1925078388, 2162078206, 2614888103,
   3248222580, 3835390401, 4022224774, 264347078, 604807628,
   770255983, 1249150122, 1555081692, 1996064986, 2554220882,
   2821834349, 2952996808, 3210313671, 3336571891, 3584528711,
   113926993, 338241895, 666307205, 773529912, 1294757372,
   1396182291, 1695183700, 1986661051, 2177026350, 2456956037,
   2730485921, 2820302411, 3259730800, 3345764771, 3516065817,
   3600352804, 4094571909, 275423344, 430227734, 506948616,
   659060556, 883997877, 958139571, 1322822218, 1537002063,
   1747873779, 1955562222, 2024104815, 2227730452, 2361852424,
   2428436474, 2756734187, 3204031479, 3329325298]

/-- The eight working variables of the compression function. -/
structure Sha256State where
  a : Nat
  b : Nat
  c : Nat
  d : Nat
  e : Nat
  f : Nat
  g : Nat
  h : Nat
deriving DecidableEq

/-- The SHA-256 initial hash value (FIPS 180-4 §5.3.3, in decimal). -/
def sha256Init : Sha256State :=
  ⟨1779033703, 3144134277, 1013904242, 2773480762,
   1359893119, 2600822924, 528734635, 1541459225⟩

/-- One round of the compression function, consuming `(Kt, Wt)`. -/
def sha256Round (s : Sha256State) (kw : Nat × Nat) : Sha256State :=
  let t1 := w32 (s.h + bigSigma1 s.e + shaCh s.e s.f s.g + kw.1 + kw.2)
  let t2 := w32 (bigSigma0 s.a + shaMaj s.a s.b s.c)
  ⟨w32 (t1 + t2), s.a, s.b, s.c, w32 (s.d + t1), s.e, s.f, s.g⟩

/-- Extend a 16-word message schedule to 64 words. -/
def extendSchedule : Array Nat → Nat → Array Nat
  | w, 0 => w
  | w, n + 1 =>
    let t := w.size
    let next := w32 (smallSigma1 (w.getD (t - 2) 0) + w.getD (t - 7) 0 +
      smallSigma0 (w.getD (t - 15) 0) + w.getD (t - 16) 0)
    extendSchedule (w.push next) n

/-- Big-endian 32-bit words from a byte list. -/
def bytesToWords : List Nat → List Nat
  | b0 :: b1 :: b2 :: b3 :: rest =>
    ((b0 <<< 24) ||| (b1 <<< 16) ||| (b2 <<< 8) ||| b3) :: bytesToWords rest
  | _ => []

/-- Process one 64-byte block. -/
def sha256Block (hv : Sha256State) (block : List Nat) : Sha256State :=
  let w := extendSchedule (Array.mk (bytesToWords block)) 48
  let s := (sha256K.zip w.toList).foldl sha256Round hv
  ⟨w32 (hv.a + s.a), w32 (hv.b + s.b), w32 (hv.c + s.c), w32 (hv.d + s.d),
   w32 (hv.e + s.e), w32 (hv.f + s.f), w32 (hv.g + s.g), w32 (hv.h + s.h)⟩

/-- Big-endian byte expansion of `n` into `k` bytes. -/
def beBytes : Nat → Nat → List Nat
  | 0, _ => []
  | k + 1, n => ((n >>> (8 * k)) % 256) :: beBytes k n

/-- SHA-256 padding: append `0x80`, zeros to 56 mod 64, then the bit
length as eight big-endian bytes. -/
def sha256Pad (m : List Nat) : List Nat :=
  let L := m.length
  let k := (120 - ((L + 1) % 64)) % 64
  m ++ [0x80] ++ List.replicate k 0 ++ beBytes 8 (8 * L)

/-- Split into 64-byte blocks (fuel-based structural recursion; fuel
`l.length` suffices since every step consumes at least one byte). -/
def toBlocksFuel : Nat → List Nat → List (List Nat)
  | 0, _ => []
  | _, [] => []
  | n + 1, l => l.take 64 :: toBlocksFuel n (l.drop 64)

/-- Split into 64-byte blocks. -/
def toBlocks (l : List Nat) : List (List Nat) :=
  toBlocksFuel l.length l

/-- The SHA-256 digest (32 bytes) of a byte-list message. -/
def sha256Bytes (m : List Nat) : List Nat :=
  let final := (toBlocks (sha256Pad m)).foldl sha256Block sha256Init
  beBytes 4 final.a ++ beBytes 4 final.b ++ beBytes 4 final.c ++ beBytes 4 final.d ++
    beBytes 4 final.e ++ beBytes 4 final.f ++ beBytes 4 final.g ++ beBytes 4 final.h

/-- Lowercase hex digit. -/
def hexChar (n : Nat) : Char :=
  if n < 10 then Char.ofNat (48 + n) else Char.ofNat (87 + n)

/-- `hex.EncodeToString` of a byte list (lowercase). -/
def hexEncodeBytes (l : List Nat) : String :=
  ⟨(l.map (fun b => [hexChar (b / 16), hexChar (b % 16)])).flatten⟩

/-- `[]byte(s)` for the ASCII strings used here. -/
def strBytes (s : String) : List Nat := s.data.map Char.toNat

/-- Hash stableName computes a stable pseudorandom string suitable for
inclusion in a Kubernetes object name from the given seed string
(spec.go): `hex.EncodeToString(sha256.Sum256([]byte(s))[:16])`. -/
def hash (s : String) : String :=
  hexEncodeBytes ((sha256Bytes (strBytes s)).take 16)

/-! ## Kubernetes object model

Just the fields the embedded code reads or writes; Go zero values are
the Lean defaults, so that a Go composite literal leaving a field out
corresponds to omitting it in a Lean structure instance, and
`reflect.DeepEqual(x, T{})` corresponds to decidable equality with `{}`. -/

inductive PersistentVolumeAccessMode where
  | ReadWriteOnce
  | ReadOnlyMany
  | ReadWriteMany
deriving DecidableEq

inductive PersistentVolumeMode where
  | Filesystem
  | Block
deriving DecidableEq

/-- `v1.ResourceRequirements`, restricted to the storage quantities a PVC
template carries (quantities kept as opaque strings). -/
structure ResourceRequirements where
  requestsStorage : Option String := none
  limitsStorage : Option String := none
deriving DecidableEq

/-- `v1.PersistentVolumeClaimSpec`. -/
structure PersistentVolumeClaimSpec where
  accessModes : List PersistentVolumeAccessMode := []
  selector : Option String := none
  resources : ResourceRequirements := {}
  volumeName : String := ""
  storageClassName : Option String := none
  volumeMode : Option PersistentVolumeMode := none
deriving DecidableEq

/-- `metav1.ObjectMeta`: the fields the controller touches. -/
structure ObjectMeta where
  name : String := ""
  nspace : String := ""
  labels : List (String × String) := []
  deletionTimestamp : Option Nat := none
  finalizers : List String := []
  ownerReferences : List String := []
deriving DecidableEq

structure PersistentVolumeClaim where
  metadata : ObjectMeta := {}
  spec : PersistentVolumeClaimSpec := {}
deriving DecidableEq

/-- `v1.EnvVar`: either a literal value or a downward-API field reference. -/
structure EnvVar where
  name : String := ""
  value : String := ""
  valueFromFieldPath : Option String := none
deriving DecidableEq

structure VolumeMount where
  name : String := ""
  mountPath : String := ""
deriving DecidableEq

/-- `v1.SecurityContext` (container level). -/
structure SecurityContext where
  privileged : Option Bool := none
  runAsUser : Option Int := none
deriving DecidableEq

structure Container where
  name : String := ""
  image : String := ""
  command : List String := []
  args : List String := []
  volumeMounts : List VolumeMount := []
  env : List EnvVar := []
  securityContext : Option SecurityContext := none
deriving DecidableEq

/-- `v1.PodSecurityContext`. -/
structure PodSecurityContext where
  runAsUser : Option Int := none
  runAsGroup : Option Int := none
  fsGroup : Option Int := none
deriving DecidableEq

/-- `v1.Volume`, restricted to the PVC volume source used here. -/
structure Volume where
  name : String := ""
  pvcClaimName : Option String := none
deriving DecidableEq

structure PodSpec where
  initContainers : List Container := []
  containers : List Container := []
  restartPolicy : String := ""
  securityContext : Option PodSecurityContext := none
  volumes : List Volume := []
deriving DecidableEq

structure PodTemplateSpec where
  metadata : ObjectMeta := {}
  spec : PodSpec := {}
deriving DecidableEq

/-- `v1.ServicePort` (`TargetPort` is `intstr.FromInt`, so an integer). -/
structure ServicePort where
  name : String := ""
  port : Int := 0
  targetPort : Int := 0
  protocol : String := ""
deriving DecidableEq

structure ServiceSpec where
  selector : List (String × String) := []
  ports : List ServicePort := []
  clusterIP : String := ""
deriving DecidableEq

structure Service where
  metadata : ObjectMeta := {}
  spec : ServiceSpec := {}
deriving DecidableEq

structure RollingUpdateDeployment where
  maxUnavailable : Int := 0
  maxSurge : Int := 0
deriving DecidableEq

structure DeploymentStrategy where
  type : String := ""
  rollingUpdate : Option RollingUpdateDeployment := none
deriving DecidableEq

structure LabelSelector where
  matchLabels : List (String × String) := []
deriving DecidableEq

structure DeploymentSpec where
  selector : Option LabelSelector := none
  template : PodTemplateSpec := {}
  replicas : Option Int := none
  strategy : DeploymentStrategy := {}
deriving DecidableEq

structure Deployment where
  metadata : ObjectMeta := {}
  spec : DeploymentSpec := {}
deriving DecidableEq

/-! ## The v1alpha1 API types (objectstore_types.go) -/

/-- GatewaySpec represents the specification of Ceph Object Store Gateway. -/
structure GatewaySpec where
  port : Int := 0
deriving DecidableEq

/-- ObjectStoreSpec defines the desired state of ObjectStore.
`VolumeClaimTemplate` is a Go pointer, hence `Option`. -/
structure ObjectStoreSpec where
  image : String := ""
  gateway : GatewaySpec := {}
  volumeClaimTemplate : Option PersistentVolumeClaim := none
deriving DecidableEq

/-- ObjectStore is the Schema for the objectstores API.  `kind` models
`GetObjectKind().GroupVersionKind().Kind`. -/
structure ObjectStore where
  kind : String := ""
  metadata : ObjectMeta := {}
  spec : ObjectStoreSpec := {}
deriving DecidableEq

/-! ## Resource-spec builders (spec.go, objectstore_controller.go) -/

/-- getLabels (spec.go): always `{"object_store": name}`. -/
def getLabels (name nspace : String) (includeNewLabels : Bool) : List (String × String) :=
  [("object_store", name)]

/-- daemonVolumeMountPVC (spec.go). -/
def daemonVolumeMountPVC : VolumeMount :=
  { name := "ceph-daemon-data", mountPath := objectStoreDataDirectory }

/-- DaemonVolumesDataPVC returns a PVC volume source for daemon container data. -/
def DaemonVolumesDataPVC (pvcName : String) : Volume :=
  { name := "ceph-daemon-data", pvcClaimName := some pvcName }

/-- DaemonEnvVars Environment variables used by storage cluster daemon. -/
def DaemonEnvVars (image : String) : List EnvVar :=
  [{ name := "CONTAINER_IMAGE", value := image },
   { name := "POD_NAME", valueFromFieldPath := some "metadata.name" },
   { name := "POD_NAMESPACE", valueFromFieldPath := some "metadata.namespace" },
   { name := "NODE_NAME", valueFromFieldPath := some "spec.nodeName" },
   { name := "CEPH_LIB", value := "/usr/lib64/rados-classes" }]

/-- podSecurityContext (spec.go): privileged, running as root. -/
def podSecurityContext : SecurityContext :=
  { privileged := some true, runAsUser := some 0 }

/-- chownCephDataDirsInitContainer (spec.go). -/
def chownCephDataDirsInitContainer (containerImage : String)
    (volumeMounts : List VolumeMount) (securityContext : SecurityContext) : Container :=
  { name := "chown-container-data-dir"
    command := ["chown"]
    args := ["--verbose", "--recursive", "ceph:ceph", objectStoreDataDirectory]
    image := containerImage
    volumeMounts := volumeMounts
    securityContext := some securityContext }

/-- makeDaemonContainer (spec.go): the RGW daemon container. -/
def makeDaemonContainer (objectStore : ObjectStore) : Container :=
  { name := "rgw"
    image := objectStore.spec.image
    command := ["radosgw-sqlite"]
    args := defaultDaemonFlag ++
      [NewFlag "id" (hash (ContainerEnvVarReference podNameEnvVar)),
       NewFlag "host" (ContainerEnvVarReference podNameEnvVar),
       NewFlag "librados sqlite data dir" objectStoreDataDirectory,
       NewFlag "debug rgw" "15"]
    volumeMounts := [daemonVolumeMountPVC]
    env := DaemonEnvVars objectStore.spec.image }

/-- makeRGWPodSpec (spec.go): fails when the daemon container equals the
zero `v1.Container{}` (the `reflect.DeepEqual` guard), otherwise builds
the pod template. -/
def makeRGWPodSpec (objectStore : ObjectStore) : Except String PodTemplateSpec :=
  let rgwDaemonContainer := makeDaemonContainer objectStore
  if rgwDaemonContainer = ({} : Container) then
    .error "got empty container for RGW daemon"
  else
    .ok
      { metadata :=
          { name := instanceName objectStore.metadata.name objectStore.metadata.nspace
            labels := getLabels objectStore.metadata.name objectStore.metadata.nspace true }
        spec :=
          { initContainers :=
              [chownCephDataDirsInitContainer objectStore.spec.image [daemonVolumeMountPVC]
                podSecurityContext]
            containers := [rgwDaemonContainer]
            restartPolicy := "Always"
            securityContext := some
              { runAsUser := some CephUID, runAsGroup := some cephGID, fsGroup := some CephUID }
            volumes :=
              [DaemonVolumesDataPVC
                (instanceName objectStore.metadata.name objectStore.metadata.nspace)] } }

/-- generateService (spec.go): the service shell (metadata only). -/
def generateService (objectStore : ObjectStore) : Service :=
  { metadata :=
      { name := instanceName objectStore.metadata.name objectStore.metadata.nspace
        nspace := objectStore.metadata.nspace
        labels := getLabels objectStore.metadata.name objectStore.metadata.nspace true } }

/-- addPort (spec.go): appends one TCP port entry unless either port is zero. -/
def addPort (service : Service) (name : String) (port destPort : Int) : Service :=
  if port = 0 ∨ destPort = 0 then service
  else
    { service with
      spec :=
        { service.spec with
          ports := service.spec.ports ++
            [{ name := name, port := port, targetPort := destPort, protocol := "TCP" }] } }

/-- The mutate closure of reconcileService (spec.go): replaces the whole
`service.Spec` with a fresh spec carrying only the selector, then calls
`addPort(service, "http", 8080, rgwPortInternalPort)`. -/
def serviceMutate (objectStore : ObjectStore) (service : Service) : Service :=
  addPort
    { service with
      spec :=
        { selector := getLabels objectStore.metadata.name objectStore.metadata.nspace false } }
    "http" 8080 rgwPortInternalPort

/-- The mutate closure of createOrUpdateDeployment
(objectstore_controller.go): rebuilds the pod template and replaces the
whole `deploy.Spec`. -/
def deploymentMutate (objectStore : ObjectStore) (deploy : Deployment) :
    Except String Deployment :=
  match makeRGWPodSpec objectStore with
  | .error e => .error e
  | .ok pod =>
    .ok
      { deploy with
        spec :=
          { selector := some
              ⟨getLabels objectStore.metadata.name objectStore.metadata.nspace false⟩
            template := pod
            replicas := some 1
            strategy :=
              { type := "RollingUpdate"
                rollingUpdate := some { maxUnavailable := 1, maxSurge := 0 } } } }

/-- The PVC object built by createPVC (objectstore_controller.go): the
template's spec, with access modes and volume mode overridden. -/
def buildPVC (objectStore : ObjectStore) (tmpl : PersistentVolumeClaim) :
    PersistentVolumeClaim :=
  { metadata :=
      { name := instanceName objectStore.metadata.name objectStore.metadata.nspace
        nspace := objectStore.metadata.nspace }
    spec :=
      { tmpl.spec with
        accessModes := [.ReadWriteOnce]
        volumeMode := some .Filesystem } }

/-! ## Finalizer helpers (`sigs.k8s.io/controller-runtime` controllerutil) -/

/-- `controllerutil.ContainsFinalizer`. -/
def containsFinalizer (o : ObjectStore) (finalizer : String) : Bool :=
  o.metadata.finalizers.contains finalizer

/-- `controllerutil.AddFinalizer`: appends unless already present. -/
def addFinalizer (o : ObjectStore) (finalizer : String) : ObjectStore :=
  if containsFinalizer o finalizer then o
  else { o with metadata := { o.metadata with finalizers := o.metadata.finalizers ++ [finalizer] } }

/-- `controllerutil.RemoveFinalizer`: removes every occurrence. -/
def removeFinalizer (o : ObjectStore) (finalizer : String) : ObjectStore :=
  { o with metadata := { o.metadata with finalizers := o.metadata.finalizers.filter (· ≠ finalizer) } }

/-! ## The reconcile loop (objectstore_controller.go)

The cluster-API client is external; it is modelled by a `ClientBehavior`
supplying the outcome of each store call the loop makes, and `Reconcile`
additionally records the trace of store *mutation* calls it issues, so
that frame claims ("zero store mutation calls", "no delete call") are
statable. -/

/-- Outcome of `r.Client.Get`. -/
inductive GetResult where
  | notFound
  | otherError (msg : String)
  | found (o : ObjectStore)
deriving DecidableEq

/-- Outcome of `r.Create` for the PVC. -/
inductive CreateResult where
  | ok
  | alreadyExists
  | otherError (msg : String)
deriving DecidableEq

/-- Outcome of `controllerutil.CreateOrUpdate`. -/
inductive OpResult where
  | unchangedRes
  | createdRes
  | updatedRes
deriving DecidableEq

/-- A store mutation call issued by the loop.  `deleteResource` is never
emitted by this controller; it is present so that "no explicit delete
call" is a statement about the trace, not about the vocabulary. -/
inductive StoreMutation where
  | createPVC (pvc : PersistentVolumeClaim)
  | writeService
  | writeDeployment
  | deleteResource (name : String)
deriving DecidableEq

/-- The external client's responses for one reconcile invocation. -/
structure ClientBehavior where
  getResult : GetResult
  pvcCreate : CreateResult
  serviceOp : Except String OpResult
  deployOp : Except String OpResult

deriving instance DecidableEq for Except

/-- What one `Reconcile` call produced: the returned error (if any), the
requeue flag of the returned `reconcile.Result` (always the zero result
here), the trace of store mutation calls, and the in-memory object after
the call. -/
structure ReconcileOutcome where
  result : Except String Unit
  requeue : Bool
  trace : List StoreMutation
  objectStoreAfter : Option ObjectStore
deriving DecidableEq

/-- Reconcile (objectstore_controller.go): fetch; not-found returns
success; other fetch errors are wrapped; a set deletion timestamp takes
the deletion branch (cleanup placeholder, remove finalizer, success);
otherwise ensure the finalizer, create the PVC (already-exists is
success), then create-or-update the service and the deployment, wrapping
any error.  A nil `VolumeClaimTemplate` makes the Go code panic while
building the PVC; the panic is modelled as an error result issued before
any store call. -/
def Reconcile (c : ClientBehavior) : ReconcileOutcome :=
  match c.getResult with
  | .notFound => { result := .ok (), requeue := false, trace := [], objectStoreAfter := none }
  | .otherError m =>
    { result := .error ("failed to get ObjectStore: " ++ m), requeue := false, trace := [],
      objectStoreAfter := none }
  | .found objectStore =>
    let finalizerName := buildFinalizerName objectStore.kind
    if objectStore.metadata.deletionTimestamp.isSome then
      { result := .ok (), requeue := false, trace := [],
        objectStoreAfter := some (removeFinalizer objectStore finalizerName) }
    else
      let objectStore :=
        if containsFinalizer objectStore finalizerName then objectStore
        else addFinalizer objectStore finalizerName
      match objectStore.spec.volumeClaimTemplate with
      | none =>
        { result := .error "invalid memory address or nil pointer dereference",
          requeue := false, trace := [], objectStoreAfter := some objectStore }
      | some tmpl =>
        let pvc := buildPVC objectStore tmpl
        match c.pvcCreate with
        | .otherError m =>
          { result := .error ("failed to create PVC: failed to create PVC \"" ++
              pvc.metadata.name ++ "\": " ++ m)
            requeue := false, trace := [.createPVC pvc], objectStoreAfter := some objectStore }
        | _ =>
          match c.serviceOp with
          | .error m =>
            { result := .error ("failed to reconcile Service: " ++ m), requeue := false,
              trace := [.createPVC pvc, .writeService], objectStoreAfter := some objectStore }
          | .ok _ =>
            match c.deployOp with
            | .error m =>
              { result := .error ("failed to create or update deployment: " ++ m)
                requeue := false, trace := [.createPVC pvc, .writeService, .writeDeployment]
                objectStoreAfter := some objectStore }
            | .ok _ =>
              { result := .ok (), requeue := false
                trace := [.createPVC pvc, .writeService, .writeDeployment]
                objectStoreAfter := some objectStore }

/-! ## Concrete example objects used by witnesses and counterexamples -/

/-- A storage-claim template that requests modes the controller must override. -/
def tmplEx : PersistentVolumeClaim :=
  { spec :=
      { accessModes := [.ReadWriteMany]
        volumeMode := some .Block
        resources := { requestsStorage := some "10Gi" }
        storageClassName := some "fast-ssd"
        volumeName := "pv-7"
        selector := some "tier=gold" } }

/-- A concrete desired gateway. -/
def osEx : ObjectStore :=
  { kind := "ObjectStore"
    metadata := { name := "my-store", nspace := "rook" }
    spec :=
      { image := "quay.io/ceph/ceph:v17"
        gateway := { port := 8080 }
        volumeClaimTemplate := some tmplEx } }

/-- A concrete desired gateway whose gateway port is zero ("not exposed"). -/
def osPort0 : ObjectStore :=
  { kind := "ObjectStore"
    metadata := { name := "quiet-store", nspace := "rook" }
    spec :=
      { image := "quay.io/ceph/ceph:v17"
        gateway := { port := 0 }
        volumeClaimTemplate := some tmplEx } }

/-- A concrete desired gateway marked for deletion, carrying its finalizer. -/
def osDeleting : ObjectStore :=
  { kind := "ObjectStore"
    metadata :=
      { name := "my-store", nspace := "rook", deletionTimestamp := some 1700000000
        finalizers := ["objectstore.object.rook-s3-nano"] }
    spec :=
      { image := "quay.io/ceph/ceph:v17"
        volumeClaimTemplate := some tmplEx } }

/-- A client answering not-found on fetch. -/
def clientNotFound : ClientBehavior :=
  { getResult := .notFound, pvcCreate := .ok
    serviceOp := .ok .createdRes, deployOp := .ok .createdRes }

/-- A client whose fetch fails with a transport error. -/
def clientGetError : ClientBehavior :=
  { getResult := .otherError "connection refused", pvcCreate := .ok
    serviceOp := .ok .createdRes, deployOp := .ok .createdRes }

/-- A client serving the deleting object. -/
def clientDeleting : ClientBehavior :=
  { getResult := .found osDeleting, pvcCreate := .ok
    serviceOp := .ok .createdRes, deployOp := .ok .createdRes }

set_option maxRecDepth 100000

/-! ## Claim C1 -/

/-- C1: for every DesiredGateway and every storage-claim template it
carries, the claim constructed by the storage-claim convergence step
(createPVC) has access mode ReadWriteOnce and volume mode Filesystem
regardless of what the template specified, while the template's other
spec fields (size request and limit, storage class, selector, volume
name) pass through unchanged. -/
theorem claim1_createPVC_forced_params (objectStore : ObjectStore)
    (tmpl : PersistentVolumeClaim)
    (hcarries : objectStore.spec.volumeClaimTemplate = some tmpl) :
    (buildPVC objectStore tmpl).spec.accessModes = [.ReadWriteOnce] ∧
    (buildPVC objectStore tmpl).spec.volumeMode = some .Filesystem ∧
    (buildPVC objectStore tmpl).spec.resources = tmpl.spec.resources ∧
    (buildPVC objectStore tmpl).spec.storageClassName = tmpl.spec.storageClassName ∧
    (buildPVC objectStore tmpl).spec.selector = tmpl.spec.selector ∧
    (buildPVC objectStore tmpl).spec.volumeName = tmpl.spec.volumeName :=
  ⟨rfl, rfl, rfl, rfl, rfl, rfl⟩

/-- Witness for C1: the concrete template requesting ReadWriteMany and
Block is forced to ReadWriteOnce and Filesystem while its size and
storage class survive. -/
theorem claim1_createPVC_forced_params_witness :
    (buildPVC osEx tmplEx).spec.accessModes = [.ReadWriteOnce] ∧
    (buildPVC osEx tmplEx).spec.volumeMode = some .Filesystem ∧
    (buildPVC osEx tmplEx).spec.resources = tmplEx.spec.resources ∧
    (buildPVC osEx tmplEx).spec.storageClassName = tmplEx.spec.storageClassName ∧
    (buildPVC osEx tmplEx).spec.selector = tmplEx.spec.selector ∧
    (buildPVC osEx tmplEx).spec.volumeName = tmplEx.spec.volumeName :=
  claim1_createPVC_forced_params osEx tmplEx rfl

/-! ## Claim C5 -/

/-- C5: the finalizer token attached to the DesiredGateway is the
lowercased kind followed by a dot and the API group (the group-version
operand of the source's format string is modelled from the spec, see
`apiGroup`). -/
theorem claim5_finalizer_name (kind : String) :
    buildFinalizerName kind = toLowerStr kind ++ "." ++ "object.rook-s3-nano" ∧
    buildFinalizerName "ObjectStore" = "objectstore.object.rook-s3-nano" :=
  ⟨rfl, by decide⟩

/-! ## Claim C6 -/

/-- The character map applied by `replaceChar ' ' '_'`. -/
def sp2us (c : Char) : Char := if c = ' ' then '_' else c

/-- The character map applied by `replaceChar '-' '_'`. -/
def hy2us (c : Char) : Char := if c = '-' then '_' else c

/-- The character map applied by `replaceChar '_' '-'`. -/
def us2hy (c : Char) : Char := if c = '_' then '-' else c

/-- The composite character map realized by `NewFlag` on its key. -/
def flagChar (c : Char) : Char := us2hy (hy2us (sp2us c))

theorem mk_data (l : List Char) : (String.mk l).data = l := rfl

/-- The key of the emitted flag is the character-wise image of the input
key under `flagChar`. -/
theorem flag_key_data (key : String) :
    (replaceChar '_' '-' (normalizeKey key)).data = key.data.map flagChar := by
  simp only [replaceChar, normalizeKey, List.map_map]
  rfl

/-- `flagChar` is invariant under substituting any conventional
separator for the separators of the key. -/
theorem flagChar_subst (sep : Char) (hsep : sep = ' ' ∨ sep = '-' ∨ sep = '_') (c : Char) :
    flagChar (if c = ' ' ∨ c = '-' ∨ c = '_' then sep else c) = flagChar c := by
  by_cases hc : c = ' ' ∨ c = '-' ∨ c = '_'
  · rw [if_pos hc]
    rcases hsep with h | h | h <;> subst h <;>
      rcases hc with h | h | h <;> subst h <;> rfl
  · rw [if_neg hc]

/-- The spelling of a logical key with the given separator substituted
for each of the three conventional separators (vocabulary for stating
the claim: the space, hyphen, and underscore forms of one logical key
are `spellWith ' '`, `spellWith '-'`, `spellWith '_'` of it). -/
def spellWith (sep : Char) (key : String) : String :=
  ⟨key.data.map (fun c => if c = ' ' ∨ c = '-' ∨ c = '_' then sep else c)⟩

/-- C6: the flag builder maps all three conventional spellings of a key
to the identical emitted flag, and concretely
`NewFlag "debug rgw" "15" = "--debug-rgw=15"` while the hyphen and
underscore spellings of `some config key` collapse to the same flag. -/
theorem claim6_flag_normalization :
    (∀ (key value : String) (sep₁ sep₂ : Char),
        sep₁ = ' ' ∨ sep₁ = '-' ∨ sep₁ = '_' →
        sep₂ = ' ' ∨ sep₂ = '-' ∨ sep₂ = '_' →
        NewFlag (spellWith sep₁ key) value = NewFlag (spellWith sep₂ key) value) ∧
    NewFlag "debug rgw" "15" = "--debug-rgw=15" ∧
    NewFlag "some-config-key" "x" = "--some-config-key=x" ∧
    NewFlag "some_config_key" "x" = "--some-config-key=x" := by
  refine ⟨?_, by decide, by decide, by decide⟩
  intro key value sep₁ sep₂ h₁ h₂
  unfold NewFlag
  have hkey : ∀ sep, sep = ' ' ∨ sep = '-' ∨ sep = '_' →
      replaceChar '_' '-' (normalizeKey (spellWith sep key)) =
        replaceChar '_' '-' (normalizeKey (spellWith ' ' key)) := by
    intro sep hs
    apply String.ext
    rw [flag_key_data, flag_key_data]
    simp only [spellWith, mk_data, List.map_map]
    apply List.map_congr_left
    intro c _
    simp only [Function.comp_apply]
    rw [flagChar_subst sep hs, flagChar_subst ' ' (Or.inl rfl)]
  rw [hkey sep₁ h₁, hkey sep₂ h₂]

/-- Witness for C6: the space and underscore spellings of `debug rgw`
produce the identical flag. -/
theorem claim6_flag_normalization_witness :
    NewFlag (spellWith ' ' "debug rgw") "15" = NewFlag (spellWith '_' "debug rgw") "15" :=
  claim6_flag_normalization.1 "debug rgw" "15" ' ' '_' (Or.inl rfl) (Or.inr (Or.inr rfl))

/-- The daemon container's argument list is one fixed expression,
independent of the ObjectStore (projection reduction). -/
theorem makeDaemonContainer_args (objectStore : ObjectStore) :
    (makeDaemonContainer objectStore).args =
      defaultDaemonFlag ++
        [NewFlag "id" (hash (ContainerEnvVarReference podNameEnvVar)),
         NewFlag "host" (ContainerEnvVarReference podNameEnvVar),
         NewFlag "librados sqlite data dir" objectStoreDataDirectory,
         NewFlag "debug rgw" "15"] := rfl

/-! ## Claim C2 -/

/-- C2: `hash` applied to the literal, unexpanded string `$(POD_NAME)`
yields the 32-character hex encoding of the first 16 bytes of the
SHA-256 digest of that exact byte sequence (concretely
`3b5dd2b313abb4941d0de8ecdd7b2fb2`), and for every ObjectStore the
daemon container's `--id` flag is built from this constant hash of the
unexpanded environment-variable reference token — the same string for
every pod, not a function of an actual pod name. -/
theorem claim2_hash_of_pod_name_token (objectStore : ObjectStore) :
    hash (ContainerEnvVarReference podNameEnvVar) =
      hexEncodeBytes ((sha256Bytes (strBytes "$(POD_NAME)")).take 16) ∧
    hash (ContainerEnvVarReference podNameEnvVar) = "3b5dd2b313abb4941d0de8ecdd7b2fb2" ∧
    (hash (ContainerEnvVarReference podNameEnvVar)).length = 32 ∧
    (makeDaemonContainer objectStore).args.getD 3 "" =
      "--id=" ++ hash (ContainerEnvVarReference podNameEnvVar) :=
  ⟨by decide, by decide, by decide, by rw [makeDaemonContainer_args]; decide⟩

/-! ## Claim C7 -/

/-- Counterexample to C7: at the concrete ObjectStore `osEx` the
argument list is not the claimed one, because the third fixed flag the
code emits is `"--nolockdep "` with a trailing space, not
`"--nolockdep"`. -/
theorem claim7_daemon_args_counterexample :
    ¬ ((makeDaemonContainer osEx).command = ["radosgw-sqlite"] ∧
       (makeDaemonContainer osEx).args =
         ["-d", "--no-mon-config", "--nolockdep",
          "--id=" ++ hash (ContainerEnvVarReference podNameEnvVar),
          "--host=$(POD_NAME)",
          "--librados-sqlite-data-dir=/var/lib/ceph/radosgw/data",
          "--debug-rgw=15"]) := by decide

/-- C7 as amended: for every ObjectStore the main daemon container's
command is the daemon binary name and its argument list is exactly
`-d`, `--no-mon-config`, `--nolockdep ` (the third fixed flag carries a
trailing space in the source) followed by the four derived flags in
order. -/
theorem claim7_daemon_args (objectStore : ObjectStore) :
    (makeDaemonContainer objectStore).command = ["radosgw-sqlite"] ∧
    (makeDaemonContainer objectStore).args =
      ["-d", "--no-mon-config", "--nolockdep ",
       "--id=3b5dd2b313abb4941d0de8ecdd7b2fb2",
       "--host=$(POD_NAME)",
       "--librados-sqlite-data-dir=/var/lib/ceph/radosgw/data",
       "--debug-rgw=15"] :=
  ⟨rfl, by rw [makeDaemonContainer_args]; decide⟩

/-! ## Claim C3 -/

/-- C3: reconciling an identifier absent from the store returns success
(nil error, no requeue) with zero store mutation calls; any other fetch
failure returns the wrapped retryable error without mutating anything. -/
theorem claim3_fetch_short_circuit (c : ClientBehavior) :
    (c.getResult = .notFound →
      Reconcile c =
        { result := .ok (), requeue := false, trace := [], objectStoreAfter := none }) ∧
    (∀ m, c.getResult = .otherError m →
      (Reconcile c).result = .error ("failed to get ObjectStore: " ++ m) ∧
      (Reconcile c).requeue = false ∧
      (Reconcile c).trace = []) := by
  constructor
  · intro h
    simp [Reconcile, h]
  · intro m h
    simp [Reconcile, h]

/-- Witness for C3: the concrete not-found client yields success and an
empty mutation trace, and the concrete failing fetch yields the wrapped
error with an empty trace. -/
theorem claim3_fetch_short_circuit_witness :
    Reconcile clientNotFound =
      { result := .ok (), requeue := false, trace := [], objectStoreAfter := none } ∧
    (Reconcile clientGetError).result =
      .error "failed to get ObjectStore: connection refused" ∧
    (Reconcile clientGetError).requeue = false ∧
    (Reconcile clientGetError).trace = [] :=
  ⟨(claim3_fetch_short_circuit clientNotFound).1 rfl,
   (claim3_fetch_short_circuit clientGetError).2 "connection refused" rfl⟩

/-! ## Claim C4 -/

/-- C4: when the fetched DesiredGateway has a deletion timestamp set,
Reconcile returns success without requeueing, issues zero store mutation
calls — in particular no delete call for the claim, service, or
deployment — and the in-memory object after the call is the fetched one
with every occurrence of the finalizer token removed. -/
theorem claim4_deletion_branch (c : ClientBehavior) (o : ObjectStore)
    (hfound : c.getResult = .found o)
    (hdel : o.metadata.deletionTimestamp.isSome) :
    (Reconcile c).result = .ok () ∧
    (Reconcile c).requeue = false ∧
    (Reconcile c).trace = [] ∧
    (∀ n, StoreMutation.deleteResource n ∉ (Reconcile c).trace) ∧
    (Reconcile c).objectStoreAfter =
      some (removeFinalizer o (buildFinalizerName o.kind)) ∧
    buildFinalizerName o.kind ∉
      (removeFinalizer o (buildFinalizerName o.kind)).metadata.finalizers := by
  have hrec : Reconcile c =
      { result := .ok (), requeue := false, trace := [],
        objectStoreAfter := some (removeFinalizer o (buildFinalizerName o.kind)) } := by
    simp [Reconcile, hfound, hdel]
  refine ⟨by rw [hrec], by rw [hrec], by rw [hrec], ?_, by rw [hrec], ?_⟩
  · intro n hn
    rw [hrec] at hn
    simp at hn
  · intro hmem
    simp only [removeFinalizer, List.mem_filter] at hmem
    simp at hmem

/-- Witness for C4: reconciling the concrete deleting object succeeds
with an empty trace and actually strips its finalizer. -/
theorem claim4_deletion_branch_witness :
    (Reconcile clientDeleting).result = .ok () ∧
    (Reconcile clientDeleting).requeue = false ∧
    (Reconcile clientDeleting).trace = [] ∧
    (∀ n, StoreMutation.deleteResource n ∉ (Reconcile clientDeleting).trace) ∧
    (Reconcile clientDeleting).objectStoreAfter =
      some (removeFinalizer osDeleting (buildFinalizerName osDeleting.kind)) ∧
    buildFinalizerName osDeleting.kind ∉
      (removeFinalizer osDeleting (buildFinalizerName osDeleting.kind)).metadata.finalizers :=
  claim4_deletion_branch clientDeleting osDeleting rfl (by decide)

/-! ## Claim C8 -/

/-- Counterexample to C8: for the concrete DesiredGateway `osPort0`
whose gateway port is zero ("not exposed"), the converged service still
has a port entry, because the service-convergence step passes the
constants 8080 and 7480 to `addPort` and never reads `gateway.port`. -/
theorem claim8_port_conditionality_counterexample :
    osPort0.spec.gateway.port = 0 ∧
    (serviceMutate osPort0 (generateService osPort0)).spec.ports ≠ [] := by
  refine ⟨rfl, ?_⟩
  decide

/-- C8 as amended: `addPort` adds a port entry only when both the
external and the internal port values are non-zero, and then exactly one
TCP entry mapping the external port to the internal port; but the
service-convergence step always calls it with the non-zero constants
8080 and 7480, so for every DesiredGateway — including one whose
gatewayPort is zero — the converged service has exactly the single TCP
entry 8080 → 7480. -/
theorem claim8_port_conditionality (service : Service) (name : String)
    (port destPort : Int) (objectStore : ObjectStore) :
    ((port = 0 ∨ destPort = 0) → addPort service name port destPort = service) ∧
    (port ≠ 0 → destPort ≠ 0 →
      (addPort service name port destPort).spec.ports =
        service.spec.ports ++
          [{ name := name, port := port, targetPort := destPort, protocol := "TCP" }]) ∧
    (serviceMutate objectStore service).spec.ports =
      [{ name := "http", port := 8080, targetPort := 7480, protocol := "TCP" }] := by
  refine ⟨?_, ?_, ?_⟩
  · intro h
    simp [addPort, h]
  · intro h1 h2
    simp [addPort, h1, h2]
  · simp [serviceMutate, addPort, rgwPortInternalPort]

/-- Witness for C8 as amended: a zero external port adds nothing, a
non-zero pair appends the single TCP entry, and the converged service of
the zero-gatewayPort object has exactly the 8080 → 7480 entry. -/
theorem claim8_port_conditionality_witness :
    addPort (generateService osPort0) "http" 0 7480 = generateService osPort0 ∧
    (addPort (generateService osPort0) "http" 8080 7480).spec.ports =
      (generateService osPort0).spec.ports ++
        [{ name := "http", port := 8080, targetPort := 7480, protocol := "TCP" }] ∧
    (serviceMutate osPort0 (generateService osPort0)).spec.ports =
      [{ name := "http", port := 8080, targetPort := 7480, protocol := "TCP" }] :=
  ⟨(claim8_port_conditionality (generateService osPort0) "http" 0 7480 osPort0).1
     (Or.inl rfl),
   (claim8_port_conditionality (generateService osPort0) "http" 8080 7480 osPort0).2.1
     (by decide) (by decide),
   (claim8_port_conditionality (generateService osPort0) "http" 8080 7480 osPort0).2.2⟩

/-! ## Claim C9 -/

/-- C9: the mutation functions used by the service and deployment
create-or-update steps are idempotent — each rebuilds the full target
spec from scratch, so a second application to the already-converged
object is the identity (in particular service port entries never
accumulate, since the spec replacement discards the previous ports
before `addPort` runs). -/
theorem claim9_mutate_idempotent :
    (∀ (objectStore : ObjectStore) (service : Service),
        serviceMutate objectStore (serviceMutate objectStore service) =
          serviceMutate objectStore service) ∧
    (∀ (objectStore : ObjectStore) (deploy deploy' : Deployment),
        deploymentMutate objectStore deploy = .ok deploy' →
        deploymentMutate objectStore deploy' = .ok deploy') := by
  constructor
  · intro objectStore service
    rfl
  · intro objectStore deploy deploy' h
    unfold deploymentMutate at h ⊢
    cases hm : makeRGWPodSpec objectStore with
    | error e =>
      rw [hm] at h
      simp at h
    | ok pod =>
      rw [hm] at h
      dsimp only at h ⊢
      injection h with h'
      subst h'
      rfl

/-- The service shell of the concrete gateway. -/
def svcShell : Service := generateService osEx

/-- The deployment produced by one application of the deployment
mutation to the zero deployment. -/
def depConverged : Deployment :=
  match deploymentMutate osEx {} with
  | .ok d => d
  | .error _ => {}

/-- Witness for C9: re-running both mutation functions on the concrete
converged service and deployment changes nothing. -/
theorem claim9_mutate_idempotent_witness :
    serviceMutate osEx (serviceMutate osEx svcShell) = serviceMutate osEx svcShell ∧
    deploymentMutate osEx depConverged = .ok depConverged :=
  ⟨claim9_mutate_idempotent.1 osEx svcShell,
   claim9_mutate_idempotent.2 osEx {} depConverged (by decide)⟩

/-! ## Claim C10 -/

/-- C10: for every ObjectStore input — the image string included, empty
or not — the daemon container's name is `rgw`, hence the container is
never the zero container, the `got empty container for RGW daemon`
branch of makeRGWPodSpec is unreachable, and pod-template construction
always succeeds with that container as the single main container. -/
theorem claim10_pod_template_total (objectStore : ObjectStore) :
    (makeDaemonContainer objectStore).name = "rgw" ∧
    makeDaemonContainer objectStore ≠ ({} : Container) ∧
    ∃ pod, makeRGWPodSpec objectStore = .ok pod ∧
      pod.spec.containers = [makeDaemonContainer objectStore] := by
  have hne : makeDaemonContainer objectStore ≠ ({} : Container) := by
    intro h
    have hn : "rgw" = "" := congrArg Container.name h
    exact absurd hn (by decide)
  refine ⟨rfl, hne, ?_⟩
  unfold makeRGWPodSpec
  rw [if_neg hne]
  exact ⟨_, rfl, rfl⟩

/-- Witness for C10: pod-template construction succeeds at a concrete
ObjectStore (and, separately below, even at one with an empty image). -/
theorem claim10_pod_template_total_witness :
    (makeDaemonContainer osEx).name = "rgw" ∧
    makeDaemonContainer osEx ≠ ({} : Container) ∧
    ∃ pod, makeRGWPodSpec osEx = .ok pod ∧
      pod.spec.containers = [makeDaemonContainer osEx] :=
  claim10_pod_template_total osEx

end Rook
